import Mathlib

/-!
# Verification of the escalada live contest engine against its specification

Shallow embedding of the relevant parts of `escalada` (Python) in Lean 4:

* `escalada/api/live.py` — server-side timer (`_compute_remaining`,
  `_apply_server_side_timer`), persistence version bump (`_persist_state`),
  public projection (`_public_preparing_climber`, `_build_public_box_state`),
  WebSocket authorization (`_authorize_ws`);
* `escalada/rate_limit.py` — `RateLimiter.check_rate_limit`;
* `escalada/api/backup.py` — `_state_from_backup_snapshot`, the per-snapshot
  decision of `restore_snapshots`.

Python numbers (int/float) are modelled as `ℚ`; a dict field that may be
absent, `None`, or non-numeric is modelled as `Option ℚ` (the code only ever
reads these fields through `dict.get` + `isinstance` numeric checks, so the
three cases are operationally identical).  Strings are `String`; `""` plays
the role of a falsy string.  The box-state dict is modelled as a structure
whose fields are exactly the keys the embedded code reads or writes.
-/

/-- One entry of the `competitors` list: a dict with a name (`nume`) and a
`marked` flag (the code tests `comp.get("marked")` for truthiness). -/
structure Competitor where
  nume : String
  marked : Bool
  deriving Repr, DecidableEq

/-- The in-memory per-box state dict of `escalada.api.live` (the keys read or
written by the embedded functions).  `Option` = key absent / `None` /
non-numeric where the code guards with `isinstance(..., (int, float))`. -/
structure BoxState where
  timerState : String := "idle"
  timerEndsAtMs : Option ℚ := none
  timerRemainingSec : Option ℚ := none
  /-- legacy `remaining` field kept by older clients -/
  remaining : Option ℚ := none
  timerPreset : Option String := none
  timerPresetSec : Option ℚ := none
  boxVersion : Option ℤ := none
  sessionId : Option String := none
  initiated : Bool := false
  categorie : String := ""
  routeIndex : Option ℤ := none
  routesCount : Option ℤ := none
  holdsCount : ℤ := 0
  holdsCounts : List ℤ := []
  competitors : List Competitor := []
  currentClimber : String := ""
  preparingClimber : String := ""
  started : Bool := false
  holdCount : ℚ := 0
  lastRegisteredTime : Option ℚ := none
  scores : List (String × List (Option ℚ)) := []
  times : List (String × List (Option ℚ)) := []
  timeCriterionEnabled : Option Bool := none
  deriving Repr, DecidableEq

/-- `_compute_remaining(state, now_ms)` from `escalada/api/live.py`:
remaining seconds derived, in priority order, from `timerEndsAtMs`,
`timerRemainingSec`, legacy `remaining`, `timerPresetSec`; every branch is
clamped with `max(0.0, ...)`; `None` when none of the four is numeric. -/
def computeRemaining (s : BoxState) (nowMs : ℚ) : Option ℚ :=
  match s.timerEndsAtMs with
  | some endsAt => some (max 0 ((endsAt - nowMs) / 1000))
  | none =>
    match s.timerRemainingSec with
    | some r => some (max 0 r)
    | none =>
      match s.remaining with
      | some legacy => some (max 0 legacy)
      | none =>
        match s.timerPresetSec with
        | some preset => some (max 0 preset)
        | none => none

/-- The remaining-time derivation as the claim words it: the raw
`timerRemainingSec` / legacy `remaining` / `timerPresetSec` value is returned
unclamped; only the `timerEndsAtMs` branch takes `max 0`.  Spec-side
definition, to be compared with `computeRemaining` (the source). -/
def claimRemaining (s : BoxState) (nowMs : ℚ) : Option ℚ :=
  match s.timerEndsAtMs with
  | some endsAt => some (max 0 ((endsAt - nowMs) / 1000))
  | none =>
    match s.timerRemainingSec with
    | some r => some r
    | none =>
      match s.remaining with
      | some legacy => some legacy
      | none =>
        match s.timerPresetSec with
        | some preset => some preset
        | none => none

/-- The remaining-time derivation with every branch clamped at `0`, written
from the amended claim's words; compared with `computeRemaining` below. -/
def claimRemainingClamped (s : BoxState) (nowMs : ℚ) : Option ℚ :=
  match s.timerEndsAtMs with
  | some endsAt => some (max 0 ((endsAt - nowMs) / 1000))
  | none =>
    match s.timerRemainingSec with
    | some r => some (max 0 r)
    | none =>
      match s.remaining with
      | some legacy => some (max 0 legacy)
      | none =>
        match s.timerPresetSec with
        | some preset => some (max 0 preset)
        | none => none

/-- The command payload dict as read by `_apply_server_side_timer`: the
`type` discriminator plus the optional fields the timer code consults
(`remaining` for STOP_TIMER/TIMER_SYNC, `timerPreset` for
INIT_ROUTE/SET_TIMER_PRESET, the boolean flags for RESET_PARTIAL). -/
structure CmdPayload where
  type : String
  remaining : Option ℚ := none
  timerPreset : Option String := none
  resetTimer : Bool := false
  clearProgress : Bool := false
  unmarkAll : Bool := false
  deriving Repr, DecidableEq

/-- Python `int(q)` on a float: truncation toward zero (`Int.tdiv` is
T-division, matching CPython's `int()`). -/
def pyInt (q : ℚ) : ℤ :=
  Int.tdiv q.num (q.den : ℤ)

/-- Modelled from the spec: `parse_timer_preset` lives in `escalada_core`,
which is not under `src/`.  Per §4.A, `timerPreset` must match `mm:ss` with
`0 ≤ mm ≤ 99` and `0 ≤ ss ≤ 59`; the parser returns the preset in seconds,
and `None` on a missing or malformed preset. -/
def parseTimerPreset (preset : Option String) : Option ℚ :=
  match preset with
  | none => none
  | some str =>
    match str.splitOn ":" with
    | [mm, ss] =>
      match mm.toNat?, ss.toNat? with
      | some m, some sec =>
        if m ≤ 99 ∧ sec ≤ 59 then some ((m : ℚ) * 60 + (sec : ℚ)) else none
      | _, _ => none
    | _ => none

/-- `_apply_server_side_timer(state, cmd_payload, now_ms)` from
`escalada/api/live.py`, branch for branch.  The Python mutates `state` in
place; here the updated state is returned. -/
def applyServerSideTimer (s : BoxState) (cmd : CmdPayload) (nowMs : ℚ) : BoxState :=
  if cmd.type = "INIT_ROUTE" then
    let preset := match s.timerPresetSec with
      | some p => some p
      | none => parseTimerPreset cmd.timerPreset
    { s with timerRemainingSec := preset, timerEndsAtMs := none }
  else if cmd.type = "SET_TIMER_PRESET" then
    let preset := match s.timerPresetSec with
      | some p => some p
      | none => parseTimerPreset cmd.timerPreset
    if s.timerState = "running" ∨ s.timerState = "paused" then s
    else { s with timerRemainingSec := preset, timerEndsAtMs := none }
  else if cmd.type = "RESET_PARTIAL" then
    if cmd.resetTimer ∨ cmd.unmarkAll then
      { s with timerRemainingSec := s.timerPresetSec, timerEndsAtMs := none }
    else s
  else if cmd.type = "START_TIMER" ∨ cmd.type = "RESUME_TIMER" then
    match computeRemaining s nowMs with
    | none => { s with timerEndsAtMs := none }
    | some r =>
      { s with timerRemainingSec := some r,
               timerEndsAtMs := some ((pyInt (nowMs + r * 1000) : ℤ) : ℚ) }
  else if cmd.type = "STOP_TIMER" then
    let r : Option ℚ :=
      match s.timerEndsAtMs with
      | some endsAt => some (max 0 ((endsAt - nowMs) / 1000))
      | none =>
        match s.timerRemainingSec with
        | some v => some v
        | none => cmd.remaining
    { s with timerRemainingSec := r, timerEndsAtMs := none }
  else if cmd.type = "TIMER_SYNC" then
    if s.timerState = "running" then s
    else
      match cmd.remaining with
      | some r => { s with timerRemainingSec := some r, timerEndsAtMs := none }
      | none => s
  else if cmd.type = "SUBMIT_SCORE" ∨ cmd.type = "RESET_BOX" then
    { s with timerRemainingSec := s.timerPresetSec, timerEndsAtMs := none }
  else s

/-- Modelled from the spec: the `timerState` transition of the core state
machine `apply_command` (`escalada_core`, not under `src/`).  Per §4.A/§4.C:
START_TIMER / RESUME_TIMER transition to `running`, STOP_TIMER to `paused`,
INIT_ROUTE / SUBMIT_SCORE / RESET_BOX set the timer to `idle`; other
commands leave `timerState` alone (TIMER_SYNC is a best-effort hint). -/
def applyCommandTimerState (s : BoxState) (cmd : CmdPayload) : BoxState :=
  if cmd.type = "START_TIMER" ∨ cmd.type = "RESUME_TIMER" then
    { s with timerState := "running" }
  else if cmd.type = "STOP_TIMER" then
    { s with timerState := "paused" }
  else if cmd.type = "INIT_ROUTE" ∨ cmd.type = "SUBMIT_SCORE" ∨ cmd.type = "RESET_BOX" then
    { s with timerState := "idle" }
  else s

/-- One applied command, as `/api/cmd` runs it with the server-side timer
enabled: the core state machine (spec-modelled `timerState` part) followed by
`_apply_server_side_timer` (from the source). -/
def applyStep (s : BoxState) (cmd : CmdPayload) (nowMs : ℚ) : BoxState :=
  applyServerSideTimer (applyCommandTimerState s cmd) cmd nowMs

/-- A state whose only numeric timer field is a stored negative
`timerRemainingSec`; used to separate the code from the claim's wording. -/
def negRemainingState : BoxState :=
  { timerState := "paused", timerRemainingSec := some (-5) }

/-- C3 counterexample: on a state with `timerEndsAtMs` absent and
`timerRemainingSec = -5`, the claim says the derivation returns
`timerRemainingSec` (that is, `-5`), but `_compute_remaining` clamps the
fallback branches too and returns `0`. -/
theorem computeRemaining_ne_claimRemaining_at_neg :
    computeRemaining negRemainingState 0 = some 0 ∧
    claimRemaining negRemainingState 0 = some (-5) ∧
    (some (0 : ℚ)) ≠ some (-5) := by
  refine ⟨rfl, rfl, ?_⟩
  decide

/-- C3 (amended): the derivation returns `max(0, (timerEndsAtMs − nowMs)/1000)`
when `timerEndsAtMs` is numeric; otherwise `max(0, timerRemainingSec)` when
numeric; otherwise `max(0, remaining)` (legacy) when numeric; otherwise
`max(0, timerPresetSec)` when numeric; otherwise null — i.e. the same
priority order as the claim, but with every fallback clamped at `0`. -/
theorem computeRemaining_eq_claimRemainingClamped (s : BoxState) (nowMs : ℚ) :
    computeRemaining s nowMs = claimRemainingClamped s nowMs := by
  unfold computeRemaining claimRemainingClamped
  rfl

/-- The timer-shape invariant exactly as the claim states it:
`timerState = "running"` iff `timerEndsAtMs` is present and
`timerRemainingSec` is absent; when idle or paused, `timerRemainingSec` is
present and `timerEndsAtMs` is absent. -/
def timerShapeInv (s : BoxState) : Prop :=
  (s.timerState = "running" ↔ (s.timerEndsAtMs ≠ none ∧ s.timerRemainingSec = none)) ∧
  ((s.timerState = "idle" ∨ s.timerState = "paused") →
    (s.timerRemainingSec ≠ none ∧ s.timerEndsAtMs = none))

/-- An idle state with 300 seconds on the clock, as produced by INIT_ROUTE
with a 05:00 preset. -/
def idleState300 : BoxState :=
  { timerState := "idle", timerRemainingSec := some 300, timerPresetSec := some 300 }

/-- The START_TIMER command payload. -/
def startTimerCmd : CmdPayload := { type := "START_TIMER" }

/-- C1 counterexample: applying START_TIMER to an idle state with 300 s
remaining produces `timerState = "running"` with `timerEndsAtMs` populated
but `timerRemainingSec` still present (line 207 of `live.py` stores it
rather than clearing it), so the claimed iff
`running ⇔ endsAtMs present ∧ remainingSec absent` fails. -/
theorem timerShapeInv_fails_after_start :
    (applyStep idleState300 startTimerCmd 1000).timerState = "running" ∧
    (applyStep idleState300 startTimerCmd 1000).timerRemainingSec = some 300 ∧
    (applyStep idleState300 startTimerCmd 1000).timerEndsAtMs ≠ none ∧
    ¬ timerShapeInv (applyStep idleState300 startTimerCmd 1000) := by
  refine ⟨rfl, rfl, fun h => Option.noConfusion h, ?_⟩
  intro h
  have h1 : (applyStep idleState300 startTimerCmd 1000).timerState = "running" := rfl
  have h2 := h.1.mp h1
  have h3 : (applyStep idleState300 startTimerCmd 1000).timerRemainingSec = some 300 := rfl
  rw [h3] at h2
  exact absurd h2.2 (by simp)

/-- C1 (amended): after START_TIMER or RESUME_TIMER on a state whose derived
remaining is non-null, the box is `running` with `timerEndsAtMs` present —
but `timerRemainingSec` is also present (the code stores the remaining
seconds alongside the deadline instead of clearing them), so only the
forward half of the claimed shape holds for the endsAt field. -/
theorem startResumeTimer_shape (s : BoxState) (cmd : CmdPayload) (nowMs r : ℚ)
    (htype : cmd.type = "START_TIMER" ∨ cmd.type = "RESUME_TIMER")
    (hr : computeRemaining s nowMs = some r) :
    (applyStep s cmd nowMs).timerState = "running" ∧
    (applyStep s cmd nowMs).timerRemainingSec = some r ∧
    (applyStep s cmd nowMs).timerEndsAtMs = some ((pyInt (nowMs + r * 1000) : ℤ) : ℚ) := by
  have hcore : applyCommandTimerState s cmd = { s with timerState := "running" } := by
    unfold applyCommandTimerState
    rw [if_pos htype]
  have hrem : computeRemaining { s with timerState := "running" } nowMs = some r := hr
  rcases htype with h | h <;>
    simp [applyStep, hcore, applyServerSideTimer, h, hrem]

/-- C1 witness: the amended statement instantiated at the concrete idle
state with 300 s remaining and `now = 1000`. -/
theorem startResumeTimer_shape_witness :
    (applyStep idleState300 startTimerCmd 1000).timerState = "running" ∧
    (applyStep idleState300 startTimerCmd 1000).timerRemainingSec = some 300 ∧
    (applyStep idleState300 startTimerCmd 1000).timerEndsAtMs =
      some ((pyInt (1000 + 300 * 1000) : ℤ) : ℚ) :=
  startResumeTimer_shape idleState300 startTimerCmd 1000 300 (Or.inl rfl) rfl

/-- The fallback chain STOP_TIMER actually uses (lines 211–222 of
`live.py`): `timerEndsAtMs` (clamped), else the stored `timerRemainingSec`
(unclamped), else the command payload's `remaining` — not the state's legacy
`remaining`, and never `timerPresetSec`. -/
def claimStopRemaining (s : BoxState) (payloadRemaining : Option ℚ) (nowMs : ℚ) : Option ℚ :=
  match s.timerEndsAtMs with
  | some endsAt => some (max 0 ((endsAt - nowMs) / 1000))
  | none =>
    match s.timerRemainingSec with
    | some v => some v
    | none => payloadRemaining

/-- A paused state whose only numeric timer sources are the legacy
`remaining` field (42) and the preset (300). -/
def legacyRemainingState : BoxState :=
  { timerState := "paused", remaining := some 42, timerPresetSec := some 300 }

/-- The STOP_TIMER command payload carrying no `remaining`. -/
def stopTimerCmd : CmdPayload := { type := "STOP_TIMER" }

/-- C4 counterexample: on a state with no `timerEndsAtMs` and no
`timerRemainingSec` but a numeric legacy `remaining = 42` (and preset 300),
`remaining(state, now)` is `42`, yet STOP_TIMER stores `None` — its fallback
chain reads the command payload, not the legacy field or the preset. -/
theorem stopTimer_ignores_legacy_remaining :
    (applyStep legacyRemainingState stopTimerCmd 0).timerRemainingSec = none ∧
    computeRemaining legacyRemainingState 0 = some 42 ∧
    (none : Option ℚ) ≠ some 42 := by
  refine ⟨rfl, rfl, ?_⟩
  simp

/-- C4 (amended): STOP_TIMER clears `timerEndsAtMs` and sets
`timerRemainingSec` to: `max(0, (timerEndsAtMs − now)/1000)` when
`timerEndsAtMs` is numeric; else the stored `timerRemainingSec`; else the
payload's `remaining` when numeric; else null.  The legacy `remaining` field
and `timerPresetSec` are not consulted. -/
theorem stopTimer_sets_remaining (s : BoxState) (cmd : CmdPayload) (nowMs : ℚ)
    (htype : cmd.type = "STOP_TIMER") :
    applyStep s cmd nowMs =
      { s with timerState := "paused",
               timerRemainingSec := claimStopRemaining s cmd.remaining nowMs,
               timerEndsAtMs := none } := by
  have hcore : applyCommandTimerState s cmd = { s with timerState := "paused" } := by
    unfold applyCommandTimerState
    rw [if_neg (by simp [htype]), if_pos htype]
  simp only [applyStep, hcore, applyServerSideTimer, htype, claimStopRemaining]
  rfl

/-- C4 witness: the amended statement at the concrete legacy-remaining state;
the stored value ends up `none` because only the payload fallback applies. -/
theorem stopTimer_sets_remaining_witness :
    applyStep legacyRemainingState stopTimerCmd 0 =
      { legacyRemainingState with
          timerState := "paused",
          timerRemainingSec := claimStopRemaining legacyRemainingState none 0,
          timerEndsAtMs := none } :=
  stopTimer_sets_remaining legacyRemainingState stopTimerCmd 0 rfl

/-- C5: TIMER_SYNC on a running box leaves the state unchanged (in
particular `timerEndsAtMs` and `timerRemainingSec` keep their values); on a
non-running box with a numeric payload `remaining`, it stores that value in
`timerRemainingSec` and clears `timerEndsAtMs`, leaving every other field
alone. -/
theorem timerSync_frame (s : BoxState) (cmd : CmdPayload) (nowMs : ℚ)
    (htype : cmd.type = "TIMER_SYNC") :
    (s.timerState = "running" → applyStep s cmd nowMs = s) ∧
    (s.timerState ≠ "running" → ∀ r, cmd.remaining = some r →
      applyStep s cmd nowMs =
        { s with timerRemainingSec := some r, timerEndsAtMs := none }) := by
  have hcore : applyCommandTimerState s cmd = s := by
    unfold applyCommandTimerState
    rw [if_neg (by simp [htype]), if_neg (by simp [htype]), if_neg (by simp [htype])]
  constructor
  · intro hrun
    simp [applyStep, hcore, applyServerSideTimer, htype, hrun]
  · intro hrun r hrem
    simp [applyStep, hcore, applyServerSideTimer, htype, hrun, hrem]

/-- A running state with a live deadline, plus a sync payload trying to set
999 seconds. -/
def runningState : BoxState :=
  { timerState := "running", timerEndsAtMs := some 500000, timerPresetSec := some 300 }

/-- The TIMER_SYNC command payload carrying `remaining = 999`. -/
def timerSyncCmd : CmdPayload := { type := "TIMER_SYNC", remaining := some 999 }

/-- C5 witness: TIMER_SYNC at the concrete running state is a no-op, and at
the concrete idle state it stores the payload's 999 and clears the
deadline. -/
theorem timerSync_frame_witness :
    applyStep runningState timerSyncCmd 0 = runningState ∧
    applyStep idleState300 timerSyncCmd 0 =
      { idleState300 with timerRemainingSec := some 999, timerEndsAtMs := none } :=
  ⟨(timerSync_frame runningState timerSyncCmd 0 rfl).1 rfl,
   (timerSync_frame idleState300 timerSyncCmd 0 rfl).2 (by simp [idleState300]) 999 rfl⟩

/-- C10: `_compute_remaining` never returns a negative number — every branch
clamps at `0`, so a stored negative value never surfaces — and it returns
null exactly when none of `timerEndsAtMs`, `timerRemainingSec`, legacy
`remaining`, `timerPresetSec` is numeric. -/
theorem computeRemaining_nonneg_and_none_iff (s : BoxState) (nowMs : ℚ) :
    (∀ r : ℚ, computeRemaining s nowMs = some r → 0 ≤ r) ∧
    (computeRemaining s nowMs = none ↔
      s.timerEndsAtMs = none ∧ s.timerRemainingSec = none ∧
      s.remaining = none ∧ s.timerPresetSec = none) := by
  constructor
  · intro r hr
    unfold computeRemaining at hr
    rcases hEnds : s.timerEndsAtMs with _ | e <;> rw [hEnds] at hr
    case some => simp only [Option.some.injEq] at hr; rw [← hr]; exact le_max_left 0 _
    rcases hRem : s.timerRemainingSec with _ | v <;> rw [hRem] at hr
    case some => simp only [Option.some.injEq] at hr; rw [← hr]; exact le_max_left 0 _
    rcases hLeg : s.remaining with _ | l <;> rw [hLeg] at hr
    case some => simp only [Option.some.injEq] at hr; rw [← hr]; exact le_max_left 0 _
    rcases hPre : s.timerPresetSec with _ | p <;> rw [hPre] at hr
    case some => simp only [Option.some.injEq] at hr; rw [← hr]; exact le_max_left 0 _
    exact absurd hr (by simp)
  · unfold computeRemaining
    rcases s.timerEndsAtMs with _ | e <;>
      rcases s.timerRemainingSec with _ | v <;>
        rcases s.remaining with _ | l <;>
          rcases s.timerPresetSec with _ | p <;> simp

/-- C10 witness: at a concrete state holding `timerRemainingSec = -5` the
derivation yields `0`, a non-negative value, and it is not `none`. -/
theorem computeRemaining_nonneg_witness :
    computeRemaining negRemainingState 3 = some 0 ∧ (0 : ℚ) ≤ 0 := by
  refine ⟨rfl, ?_⟩
  exact (computeRemaining_nonneg_and_none_iff negRemainingState 3).1 0 rfl

/-- The `boxVersion` bump performed by `_persist_state(box_id, state, action,
payload)` in `escalada/api/live.py`: for any action other than INIT_ROUTE and
TIMER_SYNC, `state["boxVersion"] = int(state.get("boxVersion", 0) or 0) + 1`
(a missing or falsy stored version counts as 0); otherwise the state is
persisted as-is. -/
def persistBumpVersion (action : String) (s : BoxState) : BoxState :=
  if action ≠ "INIT_ROUTE" ∧ action ≠ "TIMER_SYNC" then
    { s with boxVersion := some (s.boxVersion.getD 0 + 1) }
  else s

/-- C2: persisting a successfully applied command whose type is neither
INIT_ROUTE nor TIMER_SYNC increases `boxVersion` by exactly 1 (taking a
missing version as 0), and for INIT_ROUTE and TIMER_SYNC the persistence
step leaves the state — in particular `boxVersion` — unchanged. -/
theorem persistBumpVersion_increments (action : String) (s : BoxState) :
    (action ≠ "INIT_ROUTE" → action ≠ "TIMER_SYNC" → ∀ n : ℤ,
      s.boxVersion = some n →
      (persistBumpVersion action s).boxVersion = some (n + 1)) ∧
    (action = "INIT_ROUTE" ∨ action = "TIMER_SYNC" →
      persistBumpVersion action s = s) := by
  constructor
  · intro h1 h2 n hn
    unfold persistBumpVersion
    rw [if_pos ⟨h1, h2⟩]
    simp [hn]
  · intro h
    unfold persistBumpVersion
    rcases h with h | h <;> simp [h]

/-- C2 witness: SUBMIT_SCORE bumps a stored version 5 to 6, and TIMER_SYNC
leaves the same state untouched. -/
theorem persistBumpVersion_increments_witness :
    (persistBumpVersion "SUBMIT_SCORE" { boxVersion := some 5 }).boxVersion = some 6 ∧
    persistBumpVersion "TIMER_SYNC" { boxVersion := some 5 } = { boxVersion := some 5 } :=
  ⟨(persistBumpVersion_increments "SUBMIT_SCORE" { boxVersion := some 5 }).1
      (by decide) (by decide) 5 rfl,
   (persistBumpVersion_increments "TIMER_SYNC" { boxVersion := some 5 }).2 (Or.inr rfl)⟩

/-- Token claims as read by `_authorize_ws`: the `role` string and the
`boxes` list (`claims.get("boxes") or []`, so a missing list is `[]`). -/
structure Claims where
  role : String
  boxes : List ℤ
  deriving Repr, DecidableEq

/-- `_authorize_ws(box_id, claims)` from `escalada/api/live.py`: admin always;
judge iff the box is in `claims.boxes`; viewer iff `claims.boxes` is empty or
contains the box; every other role is refused. -/
def authorizeWs (boxId : ℤ) (c : Claims) : Bool :=
  if c.role = "admin" then true
  else if c.role = "judge" then c.boxes.contains boxId
  else if c.role = "viewer" then c.boxes.isEmpty || c.boxes.contains boxId
  else false

/-- C9: the WebSocket authorization predicate authorizes exactly: admins
always; judges iff `boxId ∈ claims.boxes`; viewers iff `claims.boxes` is
empty or `boxId ∈ claims.boxes`; any other role (spectator included) never. -/
theorem authorizeWs_characterization (boxId : ℤ) (c : Claims) :
    authorizeWs boxId c = true ↔
      (c.role = "admin" ∨
       (c.role = "judge" ∧ boxId ∈ c.boxes) ∨
       (c.role = "viewer" ∧ (c.boxes = [] ∨ boxId ∈ c.boxes))) := by
  unfold authorizeWs
  by_cases hAdmin : c.role = "admin"
  · simp [hAdmin]
  by_cases hJudge : c.role = "judge"
  · simp [hAdmin, hJudge]
  by_cases hViewer : c.role = "viewer"
  · simp [hAdmin, hJudge, hViewer, List.isEmpty_iff]
  · simp [hAdmin, hJudge, hViewer]

/-- The `RateLimiter` configuration (`escalada/rate_limit.py`):
global per-minute and per-second caps, the block duration, and the custom
per-command-type per-minute caps installed by `set_command_limit`. -/
structure RateLimiterConfig where
  maxPerMinute : ℕ
  maxPerSecond : ℕ
  blockDuration : ℚ
  commandLimits : List (String × ℕ)
  deriving Repr, DecidableEq

/-- The limiter's per-box record: `request_history[box_id]` (the timestamp
list and `blocked_until`, defaulting to `([], 0)`) together with
`command_history[box_id]` (timestamps per command type, defaulting to `[]`).
Timestamps are seconds (`time.time()`), modelled as `ℚ`. -/
structure RLBoxRecord where
  requests : List ℚ
  blockedUntil : ℚ
  cmdRequests : List (String × List ℚ)
  deriving Repr, DecidableEq

/-- Read `command_history[box_id][command_type]` (defaultdict: missing key
yields `[]`). -/
def rlGetCmdHistory (m : List (String × List ℚ)) (k : String) : List ℚ :=
  (m.lookup k).getD []

/-- Write `command_history[box_id][command_type]`. -/
def rlSetCmdHistory (m : List (String × List ℚ)) (k : String) (v : List ℚ) :
    List (String × List ℚ) :=
  match m with
  | [] => [(k, v)]
  | (k', v') :: rest =>
    if k' = k then (k, v) :: rest else (k', v') :: rlSetCmdHistory rest k v

/-- The denial message of `is_blocked` / `check_rate_limit` for an already
blocked box. -/
def rlBlockedReason (boxId : ℤ) : String :=
  "Box " ++ toString boxId ++ " is rate-limited. Try again later."

/-- `RateLimiter.check_rate_limit(box_id, command_type)` from
`escalada/rate_limit.py`, acting on the box's record at time `now`:
short-circuit when blocked; prune the 60-second window; per-second check and
per-minute check each set `blocked_until = now + block_duration` on breach;
the per-command-type check denies WITHOUT setting `blocked_until`; otherwise
the request is recorded in both histories. -/
def checkRateLimit (cfg : RateLimiterConfig) (boxId : ℤ) (st : RLBoxRecord)
    (cmdType : String) (now : ℚ) : Bool × String × RLBoxRecord :=
  if st.blockedUntil > now then
    (false, rlBlockedReason boxId, st)
  else
    let requests := st.requests.filter (fun ts => now - ts < 60)
    let recent := requests.filter (fun ts => now - ts < 1)
    if recent.length ≥ cfg.maxPerSecond then
      (false, "Rate limit exceeded (too many requests per second)",
        { st with requests := requests, blockedUntil := now + cfg.blockDuration })
    else if requests.length ≥ cfg.maxPerMinute then
      (false, "Rate limit exceeded (too many requests per minute)",
        { st with requests := requests, blockedUntil := now + cfg.blockDuration })
    else
      let cmdReqs := (rlGetCmdHistory st.cmdRequests cmdType).filter
        (fun ts => now - ts < 60)
      let cmdLimit := (cfg.commandLimits.lookup cmdType).getD 999
      if cmdReqs.length ≥ cmdLimit then
        (false, "Rate limit exceeded for " ++ cmdType ++ " command",
          { st with requests := requests,
                    cmdRequests := rlSetCmdHistory st.cmdRequests cmdType cmdReqs })
      else
        (true, "",
          { st with requests := requests ++ [now],
                    cmdRequests := rlSetCmdHistory st.cmdRequests cmdType
                      (cmdReqs ++ [now]) })

/-- The limiter as `get_rate_limiter()` builds it: 300/min, 20/sec, 60 s
block, and the per-type caps PROGRESS_UPDATE 120, INIT_ROUTE 10,
SUBMIT_SCORE 30, REGISTER_TIME 300. -/
def defaultRateLimiter : RateLimiterConfig :=
  { maxPerMinute := 300, maxPerSecond := 20, blockDuration := 60,
    commandLimits := [("PROGRESS_UPDATE", 120), ("INIT_ROUTE", 10),
                      ("SUBMIT_SCORE", 30), ("REGISTER_TIME", 300)] }

/-- A box record after ten INIT_ROUTE requests at seconds 0..9 (each allowed
request appends its timestamp to both histories), not blocked. -/
def initFloodRecord : RLBoxRecord :=
  { requests := [0, 1, 2, 3, 4, 5, 6, 7, 8, 9],
    blockedUntil := 0,
    cmdRequests := [("INIT_ROUTE", [0, 1, 2, 3, 4, 5, 6, 7, 8, 9])] }

/-- C6 counterexample: the eleventh INIT_ROUTE at `now = 30` breaches the
per-type cap (10/min) and is denied, yet `blocked_until` stays `0` — the
per-command-type branch never marks the box blocked, so the next check is
NOT short-circuited, contradicting the claim that every limit breach blocks
the box until `now + blockDuration`. -/
theorem rateLimit_typeCap_does_not_block :
    (checkRateLimit defaultRateLimiter 1 initFloodRecord "INIT_ROUTE" 30).1 = false ∧
    (checkRateLimit defaultRateLimiter 1 initFloodRecord "INIT_ROUTE" 30).2.1 =
      "Rate limit exceeded for INIT_ROUTE command" ∧
    (checkRateLimit defaultRateLimiter 1 initFloodRecord "INIT_ROUTE" 30).2.2.blockedUntil
      = 0 ∧
    (0 : ℚ) ≠ 30 + defaultRateLimiter.blockDuration := by
  have hnum : checkRateLimit defaultRateLimiter 1 initFloodRecord "INIT_ROUTE" 30 =
      (false, "Rate limit exceeded for INIT_ROUTE command",
        { requests := [0, 1, 2, 3, 4, 5, 6, 7, 8, 9],
          blockedUntil := 0,
          cmdRequests := [("INIT_ROUTE", [0, 1, 2, 3, 4, 5, 6, 7, 8, 9])] }) := by
    unfold checkRateLimit initFloodRecord rlGetCmdHistory rlSetCmdHistory
    norm_num [List.filter, List.lookup, defaultRateLimiter]
    decide
  refine ⟨by rw [hnum], by rw [hnum], by rw [hnum], by norm_num [defaultRateLimiter]⟩

/-- C6 (amended): if the box is already blocked (`blocked_until > now`) the
check denies and leaves the record untouched (no further accounting); a
per-second or per-minute breach denies and sets
`blocked_until = now + blockDuration`; a per-command-type breach denies but
leaves `blocked_until` unchanged. -/
theorem checkRateLimit_blocking (cfg : RateLimiterConfig) (boxId : ℤ)
    (st : RLBoxRecord) (ct : String) (now : ℚ) :
    (st.blockedUntil > now →
      checkRateLimit cfg boxId st ct now = (false, rlBlockedReason boxId, st)) ∧
    (¬ st.blockedUntil > now →
      ((st.requests.filter (fun ts => now - ts < 60)).filter
          (fun ts => now - ts < 1)).length ≥ cfg.maxPerSecond →
      (checkRateLimit cfg boxId st ct now).1 = false ∧
      (checkRateLimit cfg boxId st ct now).2.2.blockedUntil =
        now + cfg.blockDuration) ∧
    (¬ st.blockedUntil > now →
      ((st.requests.filter (fun ts => now - ts < 60)).filter
          (fun ts => now - ts < 1)).length < cfg.maxPerSecond →
      (st.requests.filter (fun ts => now - ts < 60)).length ≥ cfg.maxPerMinute →
      (checkRateLimit cfg boxId st ct now).1 = false ∧
      (checkRateLimit cfg boxId st ct now).2.2.blockedUntil =
        now + cfg.blockDuration) ∧
    (¬ st.blockedUntil > now →
      ((st.requests.filter (fun ts => now - ts < 60)).filter
          (fun ts => now - ts < 1)).length < cfg.maxPerSecond →
      (st.requests.filter (fun ts => now - ts < 60)).length < cfg.maxPerMinute →
      ((rlGetCmdHistory st.cmdRequests ct).filter
          (fun ts => now - ts < 60)).length ≥
        (cfg.commandLimits.lookup ct).getD 999 →
      (checkRateLimit cfg boxId st ct now).1 = false ∧
      (checkRateLimit cfg boxId st ct now).2.2.blockedUntil = st.blockedUntil) := by
  refine ⟨?_, ?_, ?_, ?_⟩
  · intro hb
    unfold checkRateLimit
    rw [if_pos hb]
  · intro hb hsec
    unfold checkRateLimit
    rw [if_neg hb, if_pos hsec]
    exact ⟨rfl, rfl⟩
  · intro hb hsec hmin
    unfold checkRateLimit
    rw [if_neg hb, if_neg (not_le.mpr hsec), if_pos hmin]
    exact ⟨rfl, rfl⟩
  · intro hb hsec hmin hcmd
    unfold checkRateLimit
    rw [if_neg hb, if_neg (not_le.mpr hsec), if_neg (not_le.mpr hmin), if_pos hcmd]
    exact ⟨rfl, rfl⟩

/-- An untouched box record that is blocked until second 10. -/
def blockedRecord : RLBoxRecord :=
  { requests := [], blockedUntil := 10, cmdRequests := [] }

/-- An empty box record (the defaultdict default). -/
def emptyRecord : RLBoxRecord :=
  { requests := [], blockedUntil := 0, cmdRequests := [] }

/-- A configuration whose per-second cap is zero: any request breaches it. -/
def zeroSecondConfig : RateLimiterConfig :=
  { maxPerMinute := 300, maxPerSecond := 0, blockDuration := 60, commandLimits := [] }

/-- A configuration whose per-minute cap is zero but per-second cap is one. -/
def zeroMinuteConfig : RateLimiterConfig :=
  { maxPerMinute := 0, maxPerSecond := 1, blockDuration := 60, commandLimits := [] }

/-- C6 witness: a blocked box is denied with the record untouched; an
immediate per-second breach and an immediate per-minute breach each set
`blocked_until = now + 60`. -/
theorem checkRateLimit_blocking_witness :
    checkRateLimit defaultRateLimiter 7 blockedRecord "SUBMIT_SCORE" 5 =
      (false, rlBlockedReason 7, blockedRecord) ∧
    (checkRateLimit zeroSecondConfig 7 emptyRecord "SUBMIT_SCORE" 5).2.2.blockedUntil =
      5 + zeroSecondConfig.blockDuration ∧
    (checkRateLimit zeroMinuteConfig 7 emptyRecord "SUBMIT_SCORE" 5).2.2.blockedUntil =
      5 + zeroMinuteConfig.blockDuration :=
  ⟨(checkRateLimit_blocking defaultRateLimiter 7 blockedRecord "SUBMIT_SCORE" 5).1
      (by norm_num [blockedRecord]),
   ((checkRateLimit_blocking zeroSecondConfig 7 emptyRecord "SUBMIT_SCORE" 5).2.1
      (by norm_num [emptyRecord]) (by simp [emptyRecord, zeroSecondConfig])).2,
   ((checkRateLimit_blocking zeroMinuteConfig 7 emptyRecord "SUBMIT_SCORE" 5).2.2.1
      (by norm_num [emptyRecord]) (by simp [emptyRecord, zeroMinuteConfig])
      (by simp [emptyRecord, zeroMinuteConfig])).2⟩

/-- Python `str.strip()`: drop leading and trailing whitespace (used by the
source only to test whether a name is blank). -/
def pyStrip (s : String) : String :=
  String.mk (((s.toList.dropWhile Char.isWhitespace).reverse.dropWhile
    Char.isWhitespace).reverse)

/-- `_public_preparing_climber(state)` from `escalada/api/live.py`: find the
current climber in `competitors` by name, then return the first later entry
whose name is non-blank after stripping and whose `marked` flag is falsy;
`""` when the current climber is empty or not found, or no such entry
exists. -/
def publicPreparingClimber (s : BoxState) : String :=
  if s.currentClimber = "" then ""
  else
    match s.competitors.findIdx? (fun c => c.nume == s.currentClimber) with
    | none => ""
    | some i =>
      match (s.competitors.drop (i + 1)).find?
          (fun c => !(pyStrip c.nume == "") && !c.marked) with
      | some c => c.nume
      | none => ""

/-- The claim's derivation of the preparing climber, written from the spec's
words: the first unmarked competitor strictly after the current one, `""`
when there is none or the current climber is absent.  (Unlike the source, it
does not skip blank names.)  Spec-side definition, compared with
`publicPreparingClimber`. -/
def claimPreparingClimber (s : BoxState) : String :=
  if s.currentClimber = "" then ""
  else
    match s.competitors.findIdx? (fun c => c.nume == s.currentClimber) with
    | none => ""
    | some i =>
      match (s.competitors.drop (i + 1)).find? (fun c => !c.marked) with
      | some c => c.nume
      | none => ""

/-- The dict built by `_build_public_box_state(box_id, state)`: note there is
no `competitors` field — the public projection deliberately omits the raw
competitor list. -/
structure PublicBox where
  boxId : ℤ
  categorie : String
  initiated : Bool
  routeIndex : ℤ
  routesCount : ℤ
  holdsCount : ℤ
  holdsCounts : List ℤ
  currentClimber : String
  preparingClimber : String
  timerState : String
  remaining : Option ℚ
  timeCriterionEnabled : Bool
  scoresByName : List (String × List (Option ℚ))
  timesByName : List (String × List (Option ℚ))
  deriving Repr, DecidableEq

/-- `_build_public_box_state(box_id, state)` from `escalada/api/live.py`.
`serverTimer` is `_server_side_timer_enabled()` (an environment toggle,
default on); when set, `remaining` is recomputed from the authoritative
timer at `nowMs`.  `preparingClimber` is the stored field when truthy, else
the derived value. -/
def buildPublicBoxState (boxId : ℤ) (s : BoxState) (serverTimer : Bool)
    (nowMs : ℚ) : PublicBox :=
  let routesCount : ℤ :=
    match s.routesCount with
    | some rc => rc
    | none =>
      match s.routeIndex with
      | some ri => if ri = 0 then 1 else ri
      | none => 1
  { boxId := boxId,
    categorie := s.categorie,
    initiated := s.initiated,
    routeIndex := s.routeIndex.getD 1,
    routesCount := routesCount,
    holdsCount := s.holdsCount,
    holdsCounts := s.holdsCounts,
    currentClimber := s.currentClimber,
    preparingClimber :=
      if s.preparingClimber = "" then publicPreparingClimber s
      else s.preparingClimber,
    timerState := s.timerState,
    remaining := if serverTimer then computeRemaining s nowMs else s.remaining,
    timeCriterionEnabled := s.timeCriterionEnabled.getD false,
    scoresByName := s.scores,
    timesByName := s.times }

/-- A state whose stored `preparingClimber` ("X") disagrees with the
derivation from the competitor list ([A unmarked, B unmarked], current A). -/
def storedPreparingState : BoxState :=
  { competitors := [⟨"A", false⟩, ⟨"B", false⟩],
    currentClimber := "A", preparingClimber := "X" }

/-- C8 counterexample: when the internal state carries a non-empty
`preparingClimber`, the public projection uses it verbatim instead of
deriving the first unmarked competitor after the current one, so the
published value is "X" although the derivation gives "B". -/
theorem publicBox_uses_stored_preparing :
    (buildPublicBoxState 1 storedPreparingState false 0).preparingClimber = "X" ∧
    claimPreparingClimber storedPreparingState = "B" ∧
    "X" ≠ "B" := by
  refine ⟨rfl, rfl, by decide⟩

/-- `find?` only looks at members of the list, so predicates that agree on
the list compute the same result. -/
theorem find?_congr_on {α : Type} (l : List α) (p q : α → Bool)
    (h : ∀ a ∈ l, p a = q a) : l.find? p = l.find? q := by
  induction l with
  | nil => rfl
  | cons a t ih =>
    have ha := h a (List.mem_cons_self a t)
    simp only [List.find?]
    rw [ha]
    cases q a
    · exact ih fun x hx => h x (List.mem_cons_of_mem a hx)
    · rfl

/-- C8 (amended): the public projection always contains `currentClimber`
(and, structurally, no `competitors` field); when the internal state does
not carry a stored `preparingClimber` and every competitor name is non-blank,
the published `preparingClimber` is exactly the claim's derivation — the
first unmarked competitor after the current one, `""` when there is none or
the current climber is absent.  When a stored non-empty `preparingClimber`
exists it is published instead (see the counterexample). -/
theorem publicBox_projection (boxId : ℤ) (s : BoxState) (serverTimer : Bool)
    (nowMs : ℚ) (hstored : s.preparingClimber = "")
    (hnames : ∀ c ∈ s.competitors, pyStrip c.nume ≠ "") :
    (buildPublicBoxState boxId s serverTimer nowMs).currentClimber =
      s.currentClimber ∧
    (buildPublicBoxState boxId s serverTimer nowMs).preparingClimber =
      claimPreparingClimber s := by
  refine ⟨rfl, ?_⟩
  have hpub : (buildPublicBoxState boxId s serverTimer nowMs).preparingClimber =
      publicPreparingClimber s := by
    simp [buildPublicBoxState, hstored]
  rw [hpub]
  unfold publicPreparingClimber claimPreparingClimber
  by_cases hcur : s.currentClimber = ""
  · simp [hcur]
  rw [if_neg hcur, if_neg hcur]
  rcases hidx : s.competitors.findIdx? (fun c => c.nume == s.currentClimber) with _ | i
  · simp only [hidx]
  have hfind : (s.competitors.drop (i + 1)).find?
      (fun c => !(pyStrip c.nume == "") && !c.marked) =
      (s.competitors.drop (i + 1)).find? (fun c => !c.marked) := by
    refine find?_congr_on _ _ _ ?_
    intro c hc
    have hmem : c ∈ s.competitors := List.mem_of_mem_drop hc
    have hn := hnames c hmem
    simp [hn]
  simp only [hidx, hfind]

/-- The spec's public-view scenario: INIT with competitors [A, B, C],
current climber A, nothing stored in `preparingClimber`. -/
def abcState : BoxState :=
  { competitors := [⟨"A", false⟩, ⟨"B", false⟩, ⟨"C", false⟩],
    currentClimber := "A" }

/-- C8 witness: on the [A, B, C] scenario the projection publishes
`currentClimber = "A"` and derives `preparingClimber = "B"`. -/
theorem publicBox_projection_witness :
    (buildPublicBoxState 1 abcState true 0).currentClimber = "A" ∧
    (buildPublicBoxState 1 abcState true 0).preparingClimber =
      claimPreparingClimber abcState ∧
    claimPreparingClimber abcState = "B" :=
  ⟨(publicBox_projection 1 abcState true 0 rfl (by decide)).1,
   (publicBox_projection 1 abcState true 0 rfl (by decide)).2,
   rfl⟩

/-- Python truthiness of an optional string: present and non-empty. -/
def pyTruthyStr (o : Option String) : Bool :=
  match o with
  | some x => !(x == "")
  | none => false

/-- Python `a or b` on optional strings: the left value when it is a truthy
(non-empty) string, else the right. -/
def pyOrStr (a b : Option String) : Option String :=
  match a with
  | some x => if x = "" then b else some x
  | none => b

/-- Python `v or d` where `v` is an optional integer read with
`dict.get(key, d)`: a falsy (`None`/`0`) value becomes the default. -/
def pyOrInt (v : Option ℤ) (d : ℤ) : ℤ :=
  match v with
  | some x => if x = 0 then d else x
  | none => d

/-- Python `v or d` on an optional string with default `d`. -/
def pyOrStrD (v : Option String) (d : String) : String :=
  match v with
  | some x => if x = "" then d else x
  | none => d

/-- Modelled from the spec: `default_state(session_id)` from `escalada_core`
(not under `src/`).  Per §3 and §4.F a fresh box state is idle with
`boxVersion = 0`, a `sessionId` (the given one, else a freshly generated
opaque string `freshId`), `routeIndex = 1`, `routesCount = routeIndex || 1`,
empty progress/score data and no timer deadline; notably it has a
`lastRegisteredTime` slot and no `registeredTime` field. -/
def defaultState (sid : Option String) (freshId : String) : BoxState :=
  { timerState := "idle",
    boxVersion := some 0,
    sessionId := pyOrStr sid (some freshId),
    routeIndex := some 1,
    routesCount := some 1,
    timeCriterionEnabled := some false }

/-- The external backup snapshot shape consumed by
`_state_from_backup_snapshot` (as produced by `/backup/*`): note it carries
`registeredTime`, not `lastRegisteredTime`. -/
structure BackupSnapshot where
  boxId : Option ℤ := none
  sessionId : Option String := none
  boxVersion : Option ℤ := none
  initiated : Bool := false
  holdsCount : Option ℤ := none
  routeIndex : Option ℤ := none
  currentClimber : Option String := none
  started : Bool := false
  timerState : Option String := none
  holdCount : Option ℚ := none
  competitors : List Competitor := []
  categorie : Option String := none
  registeredTime : Option ℚ := none
  remaining : Option ℚ := none
  timerPreset : Option String := none
  timerPresetSec : Option ℚ := none
  scores : List (String × List (Option ℚ)) := []
  times : List (String × List (Option ℚ)) := []
  timeCriterionEnabled : Option Bool := none
  deriving Repr, DecidableEq

/-- `_state_from_backup_snapshot(snapshot)` from `escalada/api/backup.py`:
start from `default_state(session_id)` and overwrite with the snapshot's
fields, translating `registeredTime → lastRegisteredTime`; the internal
shape has no `registeredTime` key (structurally, `BoxState` has no such
field).  `freshId` stands for the uuid the default state would generate. -/
def stateFromBackupSnapshot (snap : BackupSnapshot) (freshId : String) : BoxState :=
  let sessionId := snap.sessionId
  let boxVersion := snap.boxVersion.getD 0
  let base := defaultState sessionId freshId
  { base with
    initiated := snap.initiated,
    holdsCount := snap.holdsCount.getD 0,
    routeIndex := some (pyOrInt snap.routeIndex 1),
    currentClimber := snap.currentClimber.getD "",
    started := snap.started,
    timerState := pyOrStrD snap.timerState "idle",
    holdCount := snap.holdCount.getD 0,
    competitors := snap.competitors,
    categorie := snap.categorie.getD "",
    lastRegisteredTime := snap.registeredTime,
    remaining := snap.remaining,
    timerPreset := snap.timerPreset,
    timerPresetSec := snap.timerPresetSec,
    scores := snap.scores,
    times := snap.times,
    timeCriterionEnabled := snap.timeCriterionEnabled,
    sessionId := pyOrStr snap.sessionId base.sessionId,
    boxVersion := some boxVersion }

/-- The DB row for a box, as consulted by `restore_snapshots` (`box_version`
and `session_id` are the columns it compares against). -/
structure DbBox where
  box_version : ℤ
  session_id : Option String
  deriving Repr, DecidableEq

/-- Outcome of one iteration of the `restore_snapshots` loop for a snapshot
that passed the `box_ids` filter: either a conflict (the loop `continue`s
without writing, so the current state is untouched) or the restored state
written to the DB row and hydrated into `state_map`. -/
inductive RestoreOutcome where
  | conflict (reason : String)
  | restored (st : BoxState)
  deriving Repr, DecidableEq

/-- The per-snapshot body of `restore_snapshots` from
`escalada/api/backup.py` (lines 393–445): translate the snapshot, reject
`lower_version` / `session_conflict`, otherwise write the state with the
snapshot's version and the resolved session id (`freshBoxId` stands for the
uuid generated when a new DB row is created for a session-less snapshot). -/
def restoreOne (box : Option DbBox) (snap : BackupSnapshot)
    (freshId freshBoxId : String) : RestoreOutcome :=
  let state := stateFromBackupSnapshot snap freshId
  let desiredVersion : ℤ :=
    match state.boxVersion with
    | some v => if v = 0 then 0 else v
    | none => 0
  let desiredSession := state.sessionId
  let currentVersion : ℤ :=
    match box with
    | some b => b.box_version
    | none => -1
  let currentSession : Option String :=
    match box with
    | some b => b.session_id
    | none => none
  if box.isSome ∧ desiredVersion < currentVersion then
    RestoreOutcome.conflict "lower_version"
  else if box.isSome ∧ desiredVersion = currentVersion ∧
      pyTruthyStr desiredSession = true ∧ pyTruthyStr currentSession = true ∧
      desiredSession ≠ currentSession then
    RestoreOutcome.conflict "session_conflict"
  else
    let boxSession : Option String :=
      match box with
      | some b => b.session_id
      | none => pyOrStr desiredSession (some freshBoxId)
    let finalSession := pyOrStr desiredSession boxSession
    RestoreOutcome.restored
      { state with sessionId := finalSession, boxVersion := some desiredVersion }

/-- The translated state keeps the snapshot's `registeredTime` in
`lastRegisteredTime`. -/
theorem stateFromBackupSnapshot_lastRegisteredTime (snap : BackupSnapshot)
    (f : String) :
    (stateFromBackupSnapshot snap f).lastRegisteredTime = snap.registeredTime := rfl

/-- The translated state's `boxVersion` is the snapshot's (defaulting to 0). -/
theorem stateFromBackupSnapshot_boxVersion (snap : BackupSnapshot) (f : String) :
    (stateFromBackupSnapshot snap f).boxVersion = some (snap.boxVersion.getD 0) := rfl

/-- A non-empty left operand wins a Python `or`. -/
theorem pyOrStr_some_ne (x : String) (b : Option String) (h : x ≠ "") :
    pyOrStr (some x) b = some x := by
  simp [pyOrStr, h]

/-- The translated state's `sessionId` is the snapshot's when that is a
non-empty string. -/
theorem stateFromBackupSnapshot_sessionId (snap : BackupSnapshot) (f sd : String)
    (hsd : snap.sessionId = some sd) (hne : sd ≠ "") :
    (stateFromBackupSnapshot snap f).sessionId = some sd := by
  show pyOrStr snap.sessionId (pyOrStr snap.sessionId (some f)) = some sd
  rw [hsd, pyOrStr_some_ne sd _ hne]

/-- `if v = 0 then 0 else v` collapses to `v`. -/
theorem ite_zero_self (v : ℤ) : (if v = 0 then (0 : ℤ) else v) = v := by
  rcases eq_or_ne v 0 with h | h <;> simp [h]

/-- C7: the restore policy per processed snapshot — a current box with a
higher version rejects the snapshot with `lower_version` (the loop continues
without touching the current state); equal versions with both session ids
present and different reject with `session_conflict`; and whenever a
snapshot is restored, the stored state carries the snapshot's
`registeredTime` as `lastRegisteredTime` (the internal `BoxState` shape has
no `registeredTime` field at all) and keeps the snapshot's `boxVersion` and,
when present and non-empty, the snapshot's `sessionId`. -/
theorem restore_policy (box : Option DbBox) (snap : BackupSnapshot)
    (f1 f2 : String) :
    (∀ b, box = some b → ∀ n : ℤ, snap.boxVersion = some n →
      n < b.box_version →
      restoreOne box snap f1 f2 = RestoreOutcome.conflict "lower_version") ∧
    (∀ b, box = some b → ∀ n : ℤ, snap.boxVersion = some n →
      n = b.box_version →
      ∀ sd, snap.sessionId = some sd → sd ≠ "" →
      ∀ sc, b.session_id = some sc → sc ≠ "" → sd ≠ sc →
      restoreOne box snap f1 f2 = RestoreOutcome.conflict "session_conflict") ∧
    (∀ st, restoreOne box snap f1 f2 = RestoreOutcome.restored st →
      st.lastRegisteredTime = snap.registeredTime ∧
      st.boxVersion = some (snap.boxVersion.getD 0) ∧
      (∀ sd, snap.sessionId = some sd → sd ≠ "" → st.sessionId = some sd)) := by
  have hbv : (stateFromBackupSnapshot snap f1).boxVersion =
      some (snap.boxVersion.getD 0) := stateFromBackupSnapshot_boxVersion snap f1
  refine ⟨?_, ?_, ?_⟩
  · intro b hbox n hn hlt
    subst hbox
    have hbv' : (stateFromBackupSnapshot snap f1).boxVersion = some n := by
      rw [hbv, hn]
      rfl
    simp only [restoreOne, hbv', ite_zero_self]
    rw [if_pos ⟨rfl, hlt⟩]
  · intro b hbox n hn heq sd hsd hsdne sc hsc hscne hdiff
    subst hbox
    have hbv' : (stateFromBackupSnapshot snap f1).boxVersion = some n := by
      rw [hbv, hn]
      rfl
    have hsess := stateFromBackupSnapshot_sessionId snap f1 sd hsd hsdne
    simp only [restoreOne, hbv', hsess, ite_zero_self]
    rw [if_neg (by simp [heq]), if_pos]
    refine ⟨rfl, heq, ?_, ?_, ?_⟩
    · simp [pyTruthyStr, hsdne]
    · simp [pyTruthyStr, hsc, hscne]
    · rw [hsc]
      simp [hdiff]
  · intro st hst
    rcases box with _ | b <;>
      (simp only [restoreOne] at hst
       split at hst
       · exact RestoreOutcome.noConfusion hst
       · split at hst
         · exact RestoreOutcome.noConfusion hst
         · injection hst with h
           subst h
           refine ⟨stateFromBackupSnapshot_lastRegisteredTime snap f1, ?_, ?_⟩
           · show some (match (stateFromBackupSnapshot snap f1).boxVersion with
               | some v => if v = 0 then 0 else v
               | none => 0) = some (snap.boxVersion.getD 0)
             rw [hbv]
             simp [ite_zero_self]
           · intro sd hsd hne
             show pyOrStr (stateFromBackupSnapshot snap f1).sessionId _ = some sd
             rw [stateFromBackupSnapshot_sessionId snap f1 sd hsd hne,
               pyOrStr_some_ne sd _ hne])

/-- A current DB row at version 5 with session "s1". -/
def currentBox : DbBox := { box_version := 5, session_id := some "s1" }

/-- A snapshot carrying an older version (3) of the same box. -/
def lowSnap : BackupSnapshot :=
  { boxId := some 3, boxVersion := some 3, sessionId := some "s1" }

/-- A snapshot at the same version (5) but from a different session. -/
def clashSnap : BackupSnapshot :=
  { boxId := some 3, boxVersion := some 5, sessionId := some "s2" }

/-- The spec's restore scenario: a snapshot with `registeredTime = 9.4`,
version 7, session "sx", restored into an empty registry. -/
def newSnap : BackupSnapshot :=
  { boxId := some 4, boxVersion := some 7, sessionId := some "sx",
    registeredTime := some (47 / 5) }

/-- The state `restoreOne` writes for `newSnap` on an empty registry. -/
def restoredDemo : BoxState :=
  match restoreOne none newSnap "f1" "f2" with
  | RestoreOutcome.restored st => st
  | RestoreOutcome.conflict _ => defaultState none "f1"

/-- C7 witness: the concrete older snapshot is rejected with
`lower_version`, the same-version different-session snapshot with
`session_conflict`, and the restore of `newSnap` stores `registeredTime`
9.4 as `lastRegisteredTime` and keeps version 7 and session "sx". -/
theorem restore_policy_witness :
    restoreOne (some currentBox) lowSnap "f1" "f2" =
      RestoreOutcome.conflict "lower_version" ∧
    restoreOne (some currentBox) clashSnap "f1" "f2" =
      RestoreOutcome.conflict "session_conflict" ∧
    restoredDemo.lastRegisteredTime = newSnap.registeredTime ∧
    restoredDemo.boxVersion = some 7 ∧
    restoredDemo.sessionId = some "sx" := by
  have h3 := (restore_policy none newSnap "f1" "f2").2.2 restoredDemo rfl
  exact ⟨(restore_policy (some currentBox) lowSnap "f1" "f2").1 currentBox rfl 3 rfl
      (by decide),
    (restore_policy (some currentBox) clashSnap "f1" "f2").2.1 currentBox rfl 5 rfl
      rfl "s2" rfl (by decide) "s1" rfl (by decide) (by decide),
    h3.1, h3.2.1, h3.2.2 "sx" rfl (by decide)⟩
